import Mathlib

/-!
Verification of the onkyo-serial protocol engine (`onkyo_serial/onkyo.py`).

The Python module is shallowly embedded: the frame reader (`_readline`),
the decode step of `OnkyoBackgroundWorker.run`, the per-property value
conversions (`power`, `mute`, `volume`, `source`), command-code
resolution over the configuration, the `OnkyoSerial` zone-controller
write operations, and its cached `ZoneState` are all translated into
executable Lean definitions.  Python exceptions are modelled with
`Except`, `None` with `Option`, dicts with ordered association lists
(Python 3.7+ dicts iterate in insertion order).
-/

/-- Python-style exceptions that the embedded code can raise. -/
inductive PyErr where
  | typeError
  | valueError
  | keyError
  | unicodeDecodeError
deriving DecidableEq

/-- Lookup in an ordered association list, mirroring a Python dict
whose keys are unique (`d[k]` / `d.get(k)`). -/
def dictGet (d : List (String × String)) (k : String) : Option String :=
  match d with
  | [] => none
  | e :: rest => if e.1 == k then some e.2 else dictGet rest k

/-- The `SOURCES` table of `onkyo.py`, in source order:
input-selector code to comma-separated alias list. -/
def SOURCES : List (String × String) :=
  [("00", "VIDEO1,VCR/DVR,STB/DVR"),
   ("01", "VIDEO2,CBL/SAT"),
   ("02", "VIDEO3,GAME/TV,GAME,GAME1"),
   ("03", "VIDEO4,AUX1,AUX"),
   ("04", "VIDEO5,AUX2,GAME2"),
   ("05", "VIDEO6,PC"),
   ("06", "VIDEO7"),
   ("07", "HIDDEN1,EXTRA1"),
   ("08", "HIDDEN2,EXTRA2"),
   ("09", "HIDDEN3,EXTRA3"),
   ("10", "DVD,BD/DVD"),
   ("20", "TAPE,TV/TAPE"),
   ("21", "TAPE2"),
   ("22", "PHONO"),
   ("23", "CD,TV/CD"),
   ("24", "FM"),
   ("25", "AM"),
   ("26", "TUNER"),
   ("27", "MUSIC SERVER,P4S,DLNA*2"),
   ("28", "INTERNET RADIO,IRADIO FAVORITE*3"),
   ("29", "USB/USB (FRONT)"),
   ("2A", "USB (REAR)"),
   ("2B", "NETWORK,NET"),
   ("2C", "USB (TOGGLE)"),
   ("2D", "AIPLAY"),
   ("40", "UNIVERSALPORT"),
   ("30", "MULTICH"),
   ("31", "XM*1"),
   ("32", "SIRIUS*1"),
   ("33", "DAB*5")]

/-- One zone of the configuration mapping: `commands` and `queries`
are the per-property tables, in file order. -/
structure ZoneCfg where
  commands : List (String × String)
  queries : List (String × String)
deriving DecidableEq

/-- The full configuration handed to the worker: list of
(zone name, zone tables) in insertion order. -/
abbrev Config := List (String × ZoneCfg)

/-!  Frame Reader: `OnkyoBackgroundWorker._readline`.  The serial port
is modelled as the list of bytes its successive `read(1)` calls yield;
an exhausted list is the `read` returning no data (timeout / EOF).  -/

/-- Embedding of `_readline`: accumulate bytes until a byte equals the
sentinel `0x1a` (which is kept as the final byte) or the source yields
no data, and return whatever was accumulated. -/
def readline : List Nat → List Nat
  | [] => []
  | b :: rest => if b == 26 then [b] else b :: readline rest

/-!  Strict UTF-8 decoding, as performed by `bytes.decode('utf-8')` in
`run`: rejects stray continuation bytes, truncated sequences, overlong
encodings, surrogates and code points beyond U+10FFFF.  -/

/-- A UTF-8 continuation byte `0b10xxxxxx`. -/
def contByte (b : Nat) : Bool := 128 ≤ b && b < 192

/-- Embedding of strict `bytes.decode('utf-8')`: `none` models the
`UnicodeDecodeError` that Python raises on invalid input. -/
def utf8Decode : List Nat → Option (List Char)
  | [] => some []
  | b1 :: rest =>
    if b1 < 128 then
      match utf8Decode rest with
      | some cs => some (Char.ofNat b1 :: cs)
      | none => none
    else if b1 < 194 then none
    else if b1 < 224 then
      match rest with
      | b2 :: rest2 =>
        if contByte b2 then
          match utf8Decode rest2 with
          | some cs => some (Char.ofNat ((b1 - 192) * 64 + (b2 - 128)) :: cs)
          | none => none
        else none
      | [] => none
    else if b1 < 240 then
      match rest with
      | b2 :: b3 :: rest3 =>
        if contByte b2 && contByte b3 then
          if (b1 - 224) * 4096 + (b2 - 128) * 64 + (b3 - 128) < 2048 then none
          else if 55296 ≤ (b1 - 224) * 4096 + (b2 - 128) * 64 + (b3 - 128) &&
              (b1 - 224) * 4096 + (b2 - 128) * 64 + (b3 - 128) < 57344 then none
          else
            match utf8Decode rest3 with
            | some cs =>
              some (Char.ofNat ((b1 - 224) * 4096 + (b2 - 128) * 64 + (b3 - 128)) :: cs)
            | none => none
        else none
      | _ => none
    else if b1 < 245 then
      match rest with
      | b2 :: b3 :: b4 :: rest4 =>
        if contByte b2 && contByte b3 && contByte b4 then
          if (b1 - 240) * 262144 + (b2 - 128) * 4096 + (b3 - 128) * 64 + (b4 - 128) < 65536
            then none
          else if 1114111 < (b1 - 240) * 262144 + (b2 - 128) * 4096 + (b3 - 128) * 64 +
              (b4 - 128) then none
          else
            match utf8Decode rest4 with
            | some cs =>
              some (Char.ofNat
                ((b1 - 240) * 262144 + (b2 - 128) * 4096 + (b3 - 128) * 64 + (b4 - 128)) :: cs)
            | none => none
        else none
      | _ => none
    else none

/-!  The regular expression `!1([A-Z]{3})(.{2})?` applied with
`re.search`: scan for the leftmost position where the pattern matches;
`.` matches any character except a newline, and the optional value
group is taken greedily when two non-newline characters follow.  -/

/-- Character class `[A-Z]`. -/
def isUpperChar (c : Char) : Bool := 'A' ≤ c && c ≤ 'Z'

/-- The optional `(.{2})?` group at the current position: present
exactly when two characters follow and neither is a newline. -/
def group2 : List Char → Option String
  | x :: y :: _ => if x != '\n' && y != '\n' then some (String.mk [x, y]) else none
  | _ => none

/-- Match the pattern anchored at the head of the text. -/
def tryMatch : List Char → Option (String × Option String)
  | '!' :: '1' :: a :: b :: c :: rest =>
    if isUpperChar a && isUpperChar b && isUpperChar c then
      some (String.mk [a, b, c], group2 rest)
    else none
  | _ => none

/-- Embedding of `re.search(pattern, out)`: first position (left to
right) where the pattern matches wins. -/
def reSearch : List Char → Option (String × Option String)
  | [] => none
  | c :: rest =>
    match tryMatch (c :: rest) with
    | some r => some r
    | none => reSearch rest

/-!  Command-code resolution, from the nested loop in `run`: the inner
loop over one zone's command table breaks at the first entry whose code
equals the raw command, but the outer loop over zones has no break, so
a later zone overwrites an earlier hit.  -/

/-- The inner loop over one zone's `commands` table: first property
whose code equals `cmd`. -/
def zoneFind (t : List (String × String)) (cmd : String) : Option String :=
  match t with
  | [] => none
  | e :: rest => if e.2 == cmd then some e.1 else zoneFind rest cmd

/-- The outer loop over zones: each zone with a hit overwrites the
accumulator, so the last matching zone (in config order) survives. -/
def resolveFold (cmd : String) : Option (String × String) → Config → Option (String × String)
  | acc, [] => acc
  | acc, e :: rest =>
    resolveFold cmd
      (match zoneFind e.2.commands cmd with
       | some p => some (e.1, p)
       | none => acc) rest

/-- Resolution of a raw command code to a `(zone, property)` pair, as
performed by the loop in `OnkyoBackgroundWorker.run`. -/
def resolve (cfg : Config) (cmd : String) : Option (String × String) :=
  resolveFold cmd none cfg

/-- Every `(zone, property)` pair of the configuration whose command
code equals `cmd`, in configuration order (specification device used to
state uniqueness / multiplicity of matches). -/
def allMatches : Config → String → List (String × String)
  | [], _ => []
  | e :: rest, cmd =>
    (e.2.commands.filter (fun x => x.2 == cmd)).map (fun x => (e.1, x.1)) ++ allMatches rest cmd

/-!  Python `int(s, 16)`, used by the `volume` conversion.  CPython
first rewrites the text with its decimal-and-space transform: every
character below 127 passes through, every non-ASCII whitespace
character becomes an ASCII space, every Unicode decimal digit becomes
the corresponding ASCII digit, and every other character becomes `?`
(which can never parse).  The resulting ASCII text is then parsed:
surrounding whitespace is stripped, then an optional sign, an optional
`0x`/`0X` prefix (with one optional underscore right after it), and
hexadecimal digits of either case separated by single underscores.  -/

/-- Non-ASCII whitespace code points recognized by the transform
(the Unicode White_Space characters at or above 127). -/
def highSpace (n : Nat) : Bool :=
  n == 0x85 || n == 0xA0 || n == 0x1680 || (0x2000 ≤ n && n ≤ 0x200A) ||
    n == 0x2028 || n == 0x2029 || n == 0x202F || n == 0x205F || n == 0x3000

/-- The Unicode decimal-digit ranges (category Nd) at or above 127;
each is a run of consecutive digit cycles, so a member's digit value is
its offset from the range start modulo 10 (the mathematical digits
U+1D7CE–U+1D7FF are five consecutive styled 0–9 runs). -/
def decimalRanges : List (Nat × Nat) :=
  [(0x660, 0x669), (0x6F0, 0x6F9), (0x7C0, 0x7C9), (0x966, 0x96F), (0x9E6, 0x9EF),
   (0xA66, 0xA6F), (0xAE6, 0xAEF), (0xB66, 0xB6F), (0xBE6, 0xBEF), (0xC66, 0xC6F),
   (0xCE6, 0xCEF), (0xD66, 0xD6F), (0xDE6, 0xDEF), (0xE50, 0xE59), (0xED0, 0xED9),
   (0xF20, 0xF29), (0x1040, 0x1049), (0x1090, 0x1099), (0x17E0, 0x17E9), (0x1810, 0x1819),
   (0x1946, 0x194F), (0x19D0, 0x19D9), (0x1A80, 0x1A89), (0x1A90, 0x1A99), (0x1B50, 0x1B59),
   (0x1BB0, 0x1BB9), (0x1C40, 0x1C49), (0x1C50, 0x1C59), (0xA620, 0xA629), (0xA8D0, 0xA8D9),
   (0xA900, 0xA909), (0xA9D0, 0xA9D9), (0xA9F0, 0xA9F9), (0xAA50, 0xAA59), (0xABF0, 0xABF9),
   (0xFF10, 0xFF19), (0x104A0, 0x104A9), (0x10D30, 0x10D39), (0x11066, 0x1106F),
   (0x110F0, 0x110F9), (0x11136, 0x1113F), (0x111D0, 0x111D9), (0x112F0, 0x112F9),
   (0x11450, 0x11459), (0x114D0, 0x114D9), (0x11650, 0x11659), (0x116C0, 0x116C9),
   (0x11730, 0x11739), (0x118E0, 0x118E9), (0x11950, 0x11959), (0x11C50, 0x11C59),
   (0x11D50, 0x11D59), (0x11DA0, 0x11DA9), (0x16A60, 0x16A69), (0x16AC0, 0x16AC9),
   (0x16B50, 0x16B59), (0x1D7CE, 0x1D7FF), (0x1E140, 0x1E149), (0x1E2F0, 0x1E2F9),
   (0x1E950, 0x1E959), (0x1FBF0, 0x1FBF9)]

/-- Decimal value of a Unicode decimal digit at or above 127. -/
def pyDecimalVal (n : Nat) : Option Nat :=
  (decimalRanges.find? (fun r => r.1 ≤ n && n ≤ r.2)).map (fun r => (n - r.1) % 10)

/-- The per-character decimal-and-space transform that CPython applies
to the text before parsing an integer literal. -/
def pyTransformChar (c : Char) : Char :=
  if c.toNat < 127 then c
  else if highSpace c.toNat then ' '
  else
    match pyDecimalVal c.toNat with
    | some d => Char.ofNat (48 + d)
    | none => Char.ofNat 63

/-- ASCII whitespace stripped by the integer parser (the transformed
text is pure ASCII at this point). -/
def isPySpace (c : Char) : Bool :=
  c == ' ' || c == '\t' || c == '\n' || c == '\r' || c == Char.ofNat 11 || c == Char.ofNat 12

/-- Strip leading and trailing whitespace. -/
def pyStrip (cs : List Char) : List Char :=
  ((cs.dropWhile isPySpace).reverse.dropWhile isPySpace).reverse

/-- Hexadecimal digit of either case. -/
def isHexDigitChar (c : Char) : Bool :=
  ('0' ≤ c && c ≤ '9') || ('a' ≤ c && c ≤ 'f') || ('A' ≤ c && c ≤ 'F')

/-- Value of a hexadecimal digit. -/
def hexVal (c : Char) : Nat :=
  if '0' ≤ c && c ≤ '9' then c.toNat - 48
  else if 'a' ≤ c && c ≤ 'f' then c.toNat - 87
  else c.toNat - 55

/-- A nonempty run of hex digits in which underscores appear only
singly and between digits (Python numeric-literal rule). -/
def validDigitRun : List Char → Bool
  | [] => false
  | [c] => isHexDigitChar c
  | c :: d :: rest =>
    isHexDigitChar c && (if d == '_' then validDigitRun rest else validDigitRun (d :: rest))

/-- Accumulate the value of a digit run, skipping underscores. -/
def digitsVal (cs : List Char) : Nat :=
  cs.foldl (fun acc c => if c == '_' then acc else acc * 16 + hexVal c) 0

/-- Drop an optional `0x` / `0X` prefix, and one optional underscore
directly after it. -/
def dropHexMark : List Char → List Char
  | '0' :: 'x' :: rest =>
    match rest with
    | '_' :: r2 => r2
    | _ => rest
  | '0' :: 'X' :: rest =>
    match rest with
    | '_' :: r2 => r2
    | _ => rest
  | cs => cs

/-- Unsigned part of `int(s, 16)`. -/
def parseHexNat (cs : List Char) : Option Nat :=
  if validDigitRun (dropHexMark cs) then some (digitsVal (dropHexMark cs)) else none

/-- Embedding of Python `int(s, 16)`: the decimal-and-space transform
followed by the ASCII parse; `none` models the `ValueError`. -/
def pyIntBase16 (s : String) : Option Int :=
  match pyStrip (s.data.map pyTransformChar) with
  | '+' :: rest => (parseHexNat rest).map (fun n => (n : Int))
  | '-' :: rest => (parseHexNat rest).map (fun n => -(n : Int))
  | cs => (parseHexNat cs).map (fun n => (n : Int))

/-!  The per-property conversions of `OnkyoBackgroundWorker` and the
`process` dispatcher.  The raw value is `Option String` because the
regex value group may be absent (`None` in Python).  -/

/-- A typed property value as produced by the conversion handlers. -/
inductive PropVal where
  | power (b : Bool)
  | volume (n : Int)
  | source (s : String)
  | mute (b : Bool)
deriving DecidableEq

/-- Embedding of `process` plus the four handlers `power`, `volume`,
`source`, `mute`.  An unknown property name raises `KeyError` (the
`self.messages[message]` lookup); `volume` on a missing group raises
`TypeError` (`int(None, 16)`); an unknown source code raises `KeyError`
(`self._sources[value]`); invalid base-16 text raises `ValueError`. -/
def process (sources : List (String × String)) (message : String) (value : Option String) :
    Except PyErr PropVal :=
  if message == "power" then .ok (.power (value == some "01"))
  else if message == "volume" then
    match value with
    | none => .error .typeError
    | some s =>
      match pyIntBase16 s with
      | some n => .ok (.volume n)
      | none => .error .valueError
  else if message == "source" then
    match value with
    | none => .error .keyError
    | some s =>
      match dictGet sources s with
      | some als => .ok (.source als)
      | none => .error .keyError
  else if message == "mute" then .ok (.mute (value == some "01"))
  else .error .keyError

/-- One decode step of `OnkyoBackgroundWorker.run` on a raw frame:
decode the bytes as UTF-8, search for the pattern, resolve the command
code, and convert the value; `ok none` is a silently dropped frame,
`ok (some ev)` a published event, `error` an uncaught exception.
The `zone and prop` truthiness test of the Python code drops events
whose zone or property name is the empty string. -/
def decodeFrame (cfg : Config) (sources : List (String × String)) (frame : List Nat) :
    Except PyErr (Option (String × PropVal)) :=
  match utf8Decode frame with
  | none => .error .unicodeDecodeError
  | some text =>
    match reSearch text with
    | none => .ok none
    | some (cmd, val) =>
      match resolve cfg cmd with
      | none => .ok none
      | some (z, p) =>
        if z != "" && p != "" then
          match process sources p val with
          | .error e => .error e
          | .ok pv => .ok (some (z, pv))
        else .ok none

/-!  The zone controller `OnkyoSerial`: cached state, the notification
callback `state_change`, and the write operations.  -/

/-- The cached per-zone state: the fields `_power`, `_volume`,
`_source`, `_mute` of `OnkyoSerial`.  `volume` is an `Int` because
`int(s, 16)` can yield a negative value for a signed raw string. -/
structure ZoneState where
  power : Bool
  volume : Int
  source : Option String
  mute : Bool
deriving DecidableEq

/-- The initial state assigned at the end of `OnkyoSerial.__init__`. -/
def initState : ZoneState :=
  { power := false, volume := 0, source := none, mute := false }

/-- A zone controller as seen by the notification path: its zone id and
its cached state. -/
structure Ctrl where
  zone : String
  state : ZoneState
deriving DecidableEq

/-- The dynamic field write `self.__dict__['_' + prop] = value` of
`state_change`, specialised to the four property names that `process`
can produce. -/
def applyPV (pv : PropVal) (st : ZoneState) : ZoneState :=
  match pv with
  | .power b => { st with power := b }
  | .volume n => { st with volume := n }
  | .source s => { st with source := some s }
  | .mute b => { st with mute := b }

/-- Embedding of `OnkyoSerial.state_change`: update the named field
only when the event's zone equals this controller's zone. -/
def stateChange (z : String) (pv : PropVal) (c : Ctrl) : Ctrl :=
  if c.zone == z then { c with state := applyPV pv c.state } else c

/-- Modelled from the spec: the `Event` class (`onkyo_serial/event.py`)
is not among the provided sources; per the Notification Bus contract,
`publish` invokes every registered subscriber callback (here, each
controller's `state_change`) in registration order. -/
def publish (z : String) (pv : PropVal) (cs : List Ctrl) : List Ctrl :=
  cs.map (stateChange z pv)

/-- One full listener iteration on one frame: the decode step of `run`
followed by the `state_changed` dispatch to the registered controllers.
Returns the published event (if any) and the updated controllers, or
the uncaught exception. -/
def listenStep (cfg : Config) (sources : List (String × String)) (frame : List Nat)
    (cs : List Ctrl) : Except PyErr (Option (String × PropVal) × List Ctrl) :=
  match decodeFrame cfg sources frame with
  | .error e => .error e
  | .ok none => .ok (none, cs)
  | .ok (some (z, pv)) => .ok (some (z, pv), publish z pv cs)

/-!  Outbound writes.  Each write operation is modelled as the pair
(bytes written to the port, log lines emitted).  -/

/-- Log line of a successful `command` call. -/
def openLog (out : String) : String := "Writing command: " ++ out

/-- Log line of a `command` call on a closed port. -/
def closedLog : String := "Attempt to write command when port is not open."

/-- Embedding of `OnkyoSerial.command`: write `!1<command>\r` when the
port is open, otherwise only log. -/
def command (isOpen : Bool) (cmd : String) : List String × List String :=
  if isOpen then (["!1" ++ cmd ++ "\r"], [openLog ("!1" ++ cmd ++ "\r")])
  else ([], [closedLog])

/-- Embedding of `power_on`. -/
def powerOnOp (isOpen : Bool) (cmds : List (String × String)) : List String × List String :=
  match dictGet cmds "power" with
  | some c => command isOpen (c ++ "01")
  | none => ([], [])

/-- Embedding of `power_off`. -/
def powerOffOp (isOpen : Bool) (cmds : List (String × String)) : List String × List String :=
  match dictGet cmds "power" with
  | some c => command isOpen (c ++ "00")
  | none => ([], [])

/-- Embedding of `mute_on`. -/
def muteOnOp (isOpen : Bool) (cmds : List (String × String)) : List String × List String :=
  match dictGet cmds "mute" with
  | some c => command isOpen (c ++ "01")
  | none => ([], [])

/-- Embedding of `mute_off`. -/
def muteOffOp (isOpen : Bool) (cmds : List (String × String)) : List String × List String :=
  match dictGet cmds "mute" with
  | some c => command isOpen (c ++ "00")
  | none => ([], [])

/-!  `format(level, '02X')`: uppercase hexadecimal, left-padded with
zeros to a minimum width of two.  -/

/-- Uppercase hexadecimal digit. -/
def hexDigitChar (n : Nat) : Char :=
  if n < 10 then Char.ofNat (48 + n) else Char.ofNat (55 + n)

/-- Uppercase hexadecimal digits of `n`, most significant first
(fuel-driven so that it reduces by computation; `n + 1` fuel always
suffices). -/
def hexReprAux : Nat → Nat → List Char
  | 0, _ => []
  | fuel + 1, n =>
    if n < 16 then [hexDigitChar n] else hexReprAux fuel (n / 16) ++ [hexDigitChar (n % 16)]

/-- Embedding of `format(n, '02X')`. -/
def format02X (n : Nat) : String :=
  String.mk (List.replicate (2 - (hexReprAux (n + 1) n).length) '0' ++ hexReprAux (n + 1) n)

/-- Embedding of the `volume` write operation (`OnkyoSerial.volume`). -/
def volumeOp (isOpen : Bool) (cmds : List (String × String)) (level : Nat) :
    List String × List String :=
  match dictGet cmds "volume" with
  | some c => command isOpen (c ++ format02X level)
  | none => ([], [])

/-!  `OnkyoSerial.source`: case-insensitive alias resolution through
the reversed source table.  -/

/-- ASCII uppercasing of one character, as `str.upper()` acts on the
ASCII alias strings involved here. -/
def upperChar (c : Char) : Char :=
  if 'a' ≤ c && c ≤ 'z' then Char.ofNat (c.toNat - 32) else c

/-- Embedding of `input.upper()` on ASCII text. -/
def pyUpper (s : String) : String := String.mk (s.data.map upperChar)

/-- Embedding of `"a,b".split(',')`: split at every comma, keeping
empty segments. -/
def splitCommaAux : List Char → List Char → List String
  | [], acc => [String.mk acc.reverse]
  | ',' :: rest, acc => String.mk acc.reverse :: splitCommaAux rest []
  | c :: rest, acc => splitCommaAux rest (c :: acc)

/-- Python `s.split(',')`. -/
def splitComma (s : String) : List String := splitCommaAux s.data []

/-- The dict comprehension `{value: key for key, value in sources.items()}`:
alias-list string to code, in source order. -/
def reverseSources (sources : List (String × String)) : List (String × String) :=
  sources.map (fun e => (e.2, e.1))

/-- Python truthiness of an optional string: `None` and `''` are falsy. -/
def truthyOpt : Option String → Bool
  | none => false
  | some s => s != ""

/-- The fallback scan of `OnkyoSerial.source`: every key whose
comma-separated aliases contain the uppercased input overwrites `sel`
(the loop has no break, so the last hit survives). -/
def scanFold (up : String) : Option String → List (String × String) → Option String
  | acc, [] => acc
  | acc, e :: rest =>
    scanFold up (if (splitComma e.1).contains up then some e.2 else acc) rest

/-- Alias resolution of `OnkyoSerial.source`: first an exact lookup of
the uppercased input among the alias-list keys, then the fallback scan
when that lookup yields nothing truthy. -/
def sourceSel (rev : List (String × String)) (input : String) : Option String :=
  if truthyOpt (dictGet rev (pyUpper input)) then dictGet rev (pyUpper input)
  else scanFold (pyUpper input) (dictGet rev (pyUpper input)) rev

/-- Embedding of the `source` write operation (`OnkyoSerial.source`). -/
def sourceOp (isOpen : Bool) (cmds : List (String × String)) (rev : List (String × String))
    (input : String) : List String × List String :=
  match dictGet cmds "source" with
  | none => ([], [])
  | some c =>
    match sourceSel rev input with
    | some sel => if sel != "" then command isOpen (c ++ sel) else ([], [])
    | none => ([], [])

/-- Embedding of `update`: one `command` call per configured query, in
order. -/
def updateOp (isOpen : Bool) : List String → List String × List String
  | [] => ([], [])
  | q :: rest =>
    ((command isOpen q).1 ++ (updateOp isOpen rest).1,
     (command isOpen q).2 ++ (updateOp isOpen rest).2)

/-!  The example configuration from the bottom of `onkyo.py`, used for
concrete scenarios.  -/

/-- The `master` zone command table of the example configuration. -/
def masterCommands : List (String × String) :=
  [("power", "PWR"), ("volume", "MVL"), ("source", "SLI"), ("mute", "AMT")]

/-- The `master` zone query table of the example configuration. -/
def masterQueries : List (String × String) :=
  [("power", "PWRQSTN"), ("volume", "MVLQSTN"), ("source", "SLIQSTN"), ("mute", "AMTQSTN")]

/-- The `zone2` command table of the example configuration. -/
def zone2Commands : List (String × String) :=
  [("power", "ZPW"), ("volume", "ZVL"), ("source", "SLZ"), ("mute", "ZMT")]

/-- The `zone2` query table of the example configuration. -/
def zone2Queries : List (String × String) :=
  [("power", "ZPWQSTN"), ("volume", "SVLQSTN"), ("source", "SLZQSTN"), ("mute", "ZMTQSTN")]

/-- The example two-zone configuration. -/
def exConfig : Config :=
  [("master", { commands := masterCommands, queries := masterQueries }),
   ("zone2", { commands := zone2Commands, queries := zone2Queries })]

/-- The frame `!1PWR01\x1a` as raw bytes. -/
def pwrFrame : List Nat := [0x21, 0x31, 0x50, 0x57, 0x52, 0x30, 0x31, 0x1a]

deriving instance DecidableEq for Except

/-!  Helper lemmas about command-code resolution.  -/

/-- A zone whose filtered command table is empty yields no inner-loop
hit. -/
theorem zoneFind_eq_none_of_filter_eq_nil (t : List (String × String)) (cmd : String)
    (h : t.filter (fun x => x.2 == cmd) = []) : zoneFind t cmd = none := by
  induction t with
  | nil => rfl
  | cons e rest ih =>
    rw [List.filter_cons] at h
    cases hc : (e.2 == cmd) with
    | true => simp [hc] at h
    | false =>
      rw [hc] at h
      simp only [Bool.false_eq_true, if_false] at h
      rw [zoneFind, hc]
      simp only [Bool.false_eq_true, if_false]
      exact ih h

/-- The inner loop's hit is the head of the filtered command table. -/
theorem zoneFind_eq_of_filter_eq_cons (t : List (String × String)) (cmd : String)
    (x : String × String) (l : List (String × String))
    (h : t.filter (fun e => e.2 == cmd) = x :: l) : zoneFind t cmd = some x.1 := by
  induction t with
  | nil => simp [List.filter_nil] at h
  | cons e rest ih =>
    rw [List.filter_cons] at h
    cases hc : (e.2 == cmd) with
    | true =>
      rw [hc] at h
      simp only [if_true] at h
      rw [zoneFind, hc]
      simp only [if_true]
      rw [List.cons_eq_cons] at h
      rw [h.1]
    | false =>
      rw [hc] at h
      simp only [Bool.false_eq_true, if_false] at h
      rw [zoneFind, hc]
      simp only [Bool.false_eq_true, if_false]
      exact ih h

/-- Zones without any match leave the accumulator untouched. -/
theorem resolveFold_eq_of_no_match (cmd : String) (cfg : Config)
    (h : allMatches cfg cmd = []) : ∀ acc, resolveFold cmd acc cfg = acc := by
  induction cfg with
  | nil => intro acc; rfl
  | cons e rest ih =>
    intro acc
    rw [allMatches] at h
    rw [List.append_eq_nil] at h
    have hf : e.2.commands.filter (fun x => x.2 == cmd) = [] := by
      have := h.1
      rwa [List.map_eq_nil_iff] at this
    rw [resolveFold, zoneFind_eq_none_of_filter_eq_nil _ _ hf]
    exact ih h.2 acc

/-- When the configuration contains exactly one matching
(zone, property) pair, the loop of `run` resolves to it. -/
theorem resolve_of_unique_match (cfg : Config) (cmd : String) (Z P : String)
    (h : allMatches cfg cmd = [(Z, P)]) : resolve cfg cmd = some (Z, P) := by
  rw [resolve]
  suffices hgen : ∀ acc, resolveFold cmd acc cfg = some (Z, P) from hgen none
  induction cfg with
  | nil => simp [allMatches] at h
  | cons e rest ih =>
    intro acc
    rw [allMatches] at h
    cases hf : e.2.commands.filter (fun x => x.2 == cmd) with
    | nil =>
      rw [hf] at h
      simp only [List.map_nil, List.nil_append] at h
      rw [resolveFold, zoneFind_eq_none_of_filter_eq_nil _ _ hf]
      exact ih h _
    | cons x l =>
      rw [hf] at h
      simp only [List.map_cons, List.cons_append, List.cons_eq_cons] at h
      obtain ⟨hx, hrest⟩ := h
      have hnil := List.append_eq_nil.mp hrest
      have hfind := zoneFind_eq_of_filter_eq_cons _ _ _ _ hf
      rw [resolveFold, hfind]
      have hz : e.1 = Z := congrArg Prod.fst hx
      have hp : x.1 = P := congrArg Prod.snd hx
      rw [hz, hp]
      exact resolveFold_eq_of_no_match cmd rest hnil.2 _

/-- Splitting a configuration around the last zone that matches: the
fold is insensitive to earlier zones once a later hit overwrites. -/
theorem resolveFold_append (cmd : String) (acc : Option (String × String))
    (l1 l2 : Config) :
    resolveFold cmd acc (l1 ++ l2) = resolveFold cmd (resolveFold cmd acc l1) l2 := by
  induction l1 generalizing acc with
  | nil => rfl
  | cons e rest ih => rw [List.cons_append, resolveFold, resolveFold, ih]

/-- A run of zones none of which matches leaves the accumulator. -/
theorem resolveFold_eq_of_all_miss (cmd : String) (l : Config)
    (h : ∀ e ∈ l, zoneFind e.2.commands cmd = none) :
    ∀ acc, resolveFold cmd acc l = acc := by
  induction l with
  | nil => intro acc; rfl
  | cons e rest ih =>
    intro acc
    rw [resolveFold, h e (List.mem_cons_self e rest)]
    exact ih (fun x hx => h x (List.mem_cons_of_mem e hx)) acc

/-- A property name accepted by `process` is one of the four tracked
names, hence nonempty. -/
theorem process_ok_prop_ne_empty (sources : List (String × String)) (P : String)
    (v : Option String) (pv : PropVal) (h : process sources P v = .ok pv) : P ≠ "" := by
  intro hP
  rw [hP] at h
  simp [process] at h

/-!  Claim C2: cross-zone resolution order.  -/

/-- A two-zone configuration in which both zones configure the same
power command code `PWR`. -/
def cfgShared : Config :=
  [("master", { commands := [("power", "PWR")], queries := [] }),
   ("zone2", { commands := [("power", "PWR")], queries := [] })]

/-- C2 counterexample: with `master` and `zone2` both configuring code
`PWR`, the decoder resolves to `zone2` — the last zone in configuration
order — not to the first zone `master` as the claim states. -/
theorem c2_counterexample :
    resolve cfgShared "PWR" = some ("zone2", "power") ∧
      resolve cfgShared "PWR" ≠ some ("master", "power") := by decide

/-- C2 (amended): when a command code occurs in several zones, the
published pair names the last zone in configuration order whose table
contains the code (the outer loop of `run` has no break), paired with
the first matching property inside that zone's table. -/
theorem c2_last_match_wins (cfg1 cfg2 : Config) (z : String) (zc : ZoneCfg) (cmd p : String)
    (h1 : zoneFind zc.commands cmd = some p)
    (h2 : ∀ e ∈ cfg2, zoneFind e.2.commands cmd = none) :
    resolve (cfg1 ++ (z, zc) :: cfg2) cmd = some (z, p) := by
  rw [resolve, resolveFold_append]
  rw [resolveFold]
  simp only [h1]
  exact resolveFold_eq_of_all_miss cmd cfg2 h2 _

/-- C2 witness: the amended resolution applied to a concrete
three-zone configuration where the first and second zones share the
code `PWR` and a third zone does not carry it. -/
theorem c2_last_match_wins_witness :
    resolve ([("master", { commands := [("power", "PWR")], queries := [] })] ++
      ("zone2", { commands := [("power", "PWR")], queries := [] }) ::
        [("zone3", { commands := [("mute", "ZMT")], queries := [] })]) "PWR" =
      some ("zone2", "power") :=
  c2_last_match_wins [("master", { commands := [("power", "PWR")], queries := [] })]
    [("zone3", { commands := [("mute", "ZMT")], queries := [] })]
    "zone2" { commands := [("power", "PWR")], queries := [] } "PWR" "power"
    (by decide) (by decide)

/-!  Claim C4: non-matching frames.  -/

/-- C4 (amended): a frame whose bytes decode as UTF-8 text in which the
pattern matches nowhere is dropped silently — no event is published, no
exception is raised and the controllers are untouched.  (Frames whose
bytes are not valid UTF-8 instead raise `UnicodeDecodeError`; see the
counterexample.) -/
theorem c4_unmatched_frame_dropped (cfg : Config) (sources : List (String × String))
    (frame : List Nat) (text : List Char) (cs : List Ctrl)
    (hdec : utf8Decode frame = some text) (hsearch : reSearch text = none) :
    listenStep cfg sources frame cs = .ok (none, cs) := by
  simp only [listenStep, decodeFrame, hdec, hsearch]

/-- C4 witness: the frame `hi\x1a` decodes but matches nowhere, so one
listener iteration publishes nothing and raises nothing. -/
theorem c4_unmatched_frame_dropped_witness :
    listenStep exConfig SOURCES [104, 105, 26] [] = .ok (none, []) :=
  c4_unmatched_frame_dropped exConfig SOURCES [104, 105, 26] ['h', 'i', '\x1a'] []
    (by decide) (by decide)

/-- C4 counterexample: the frame `0xFF 0x1A` does not match the
pattern, yet the decode step raises `UnicodeDecodeError` (the bytes are
decoded as UTF-8 before any pattern matching), contradicting the
claim's "raises no exception ... for all byte contents including bytes
that are not valid text". -/
theorem c4_counterexample :
    utf8Decode [255, 26] = none ∧
      listenStep exConfig SOURCES [255, 26] [] = .error .unicodeDecodeError := by decide

/-!  Claim C5: the frame reader on EOF.  -/

/-- C5 counterexample: a source that yields bytes `A B` and then
reports no data makes `_readline` return the partially accumulated
bytes `A B`, not an empty frame as the claim states. -/
theorem c5_counterexample :
    readline [65, 66] = [65, 66] ∧ readline [65, 66] ≠ [] := by decide

/-- C5 (amended): when the byte source reports end-of-stream before any
sentinel byte `0x1a`, `_readline` returns exactly the bytes accumulated
so far (an empty frame only when no byte was read at all); when the
sentinel is read, it returns the accumulated bytes with the sentinel as
the final byte. -/
theorem c5_readline_frames (stream pre rest : List Nat)
    (h1 : ¬ 26 ∈ stream) (h2 : ¬ 26 ∈ pre) :
    readline stream = stream ∧ readline (pre ++ 26 :: rest) = pre ++ [26] := by
  constructor
  · induction stream with
    | nil => rfl
    | cons b tl ih =>
      rw [List.mem_cons, not_or] at h1
      have hb : (b == 26) = false := by
        rw [beq_eq_false_iff_ne]
        exact fun hh => h1.1 hh.symm
      rw [readline, hb]
      simp only [Bool.false_eq_true, if_false]
      rw [ih h1.2]
  · induction pre with
    | nil => simp [readline]
    | cons b tl ih =>
      rw [List.mem_cons, not_or] at h2
      have hb : (b == 26) = false := by
        rw [beq_eq_false_iff_ne]
        exact fun hh => h2.1 hh.symm
      rw [List.cons_append, readline, hb]
      simp only [Bool.false_eq_true, if_false]
      rw [ih h2.2, List.cons_append]

/-- C5 witness: the amended reader behaviour at concrete streams — all
of `1 2 3` is returned on EOF, and `65 26 99` frames as `65 26` with
the sentinel final. -/
theorem c5_readline_frames_witness :
    readline [1, 2, 3] = [1, 2, 3] ∧ readline ([65] ++ 26 :: [99]) = [65] ++ [26] :=
  c5_readline_frames [1, 2, 3] [65] [99] (by decide) (by decide)

/-!  Claim C10: initial cached state.  -/

/-- C10: immediately after construction, before any event is delivered,
the cached state of a zone controller is power = false, volume = 0,
source = absent, mute = false. -/
theorem c10_initial_zone_state :
    initState.power = false ∧ initState.volume = 0 ∧ initState.source = none ∧
      initState.mute = false := by decide

/-!  Claim C8: setVolume formatting.  -/

/-- An uppercase hexadecimal character as emitted by `format(_, '02X')`. -/
def isUpperHexChar (c : Char) : Bool := ('0' ≤ c && c ≤ '9') || ('A' ≤ c && c ≤ 'F')

set_option maxRecDepth 8000 in
/-- For every level in [0, 255], `format(level, '02X')` is exactly two
uppercase hexadecimal characters. -/
theorem format02X_len_upper :
    ∀ n, n < 256 → (format02X n).length = 2 ∧ (format02X n).data.all isUpperHexChar = true := by
  decide

/-- C8: on a zone with a configured volume command, `setVolume(level)`
for level in [0, 255] writes the volume command code suffixed with
exactly two uppercase hexadecimal characters encoding the level
(level 55 gives the suffix `37`); without a configured volume command
nothing is written. -/
theorem c8_setVolume_two_hex (cmds : List (String × String)) (code : String) (level : Nat)
    (hl : level < 256) (hc : dictGet cmds "volume" = some code) :
    (volumeOp true cmds level).1 = ["!1" ++ code ++ format02X level ++ "\r"] ∧
      (format02X level).length = 2 ∧
      (format02X level).data.all isUpperHexChar = true ∧
      format02X 55 = "37" ∧
      ∀ cm2 : List (String × String), dictGet cm2 "volume" = none →
        (volumeOp true cm2 level).1 = [] := by
  refine ⟨?_, (format02X_len_upper level hl).1, (format02X_len_upper level hl).2,
    by decide, ?_⟩
  · simp [volumeOp, hc, command, String.append_assoc]
  · intro cm2 h2
    simp [volumeOp, h2]

/-- C8 witness: level 55 on the master volume command `MVL` writes
`!1MVL37\r`. -/
theorem c8_setVolume_two_hex_witness :
    (volumeOp true [("volume", "MVL")] 55).1 = ["!1" ++ "MVL" ++ format02X 55 ++ "\r"] :=
  (c8_setVolume_two_hex [("volume", "MVL")] "MVL" 55 (by decide) (by decide)).1

/-!  Claim C9: writes on a closed transport.  -/

/-- The zone-controller write methods neither read nor assign any of
the cached `_`-prefixed state fields (only `state_change` does), so the
state across a write operation is the state before it; this wrapper
records a write operation together with that unchanged state. -/
def writeOpWithState (st : ZoneState) (op : List String × List String) :
    ZoneState × (List String × List String) := (st, op)

/-- C9: with the transport reporting closed, every write operation of
the zone controller writes nothing, logs the attempt (whenever a
command is configured, i.e. whenever the operation reaches `command`),
raises nothing, and leaves the cached state unchanged; `update` logs
one attempt per configured query. -/
theorem c9_closed_port_noop (cmds rev : List (String × String)) (queries : List String)
    (level : Nat) (input cmd : String) (st : ZoneState) :
    command false cmd = ([], [closedLog]) ∧
      (powerOnOp false cmds).1 = [] ∧ (powerOffOp false cmds).1 = [] ∧
      (muteOnOp false cmds).1 = [] ∧ (muteOffOp false cmds).1 = [] ∧
      (volumeOp false cmds level).1 = [] ∧ (sourceOp false cmds rev input).1 = [] ∧
      (updateOp false queries).1 = [] ∧
      (updateOp false queries).2 = List.replicate queries.length closedLog ∧
      (writeOpWithState st (powerOnOp false cmds)).1 = st ∧
      (dictGet cmds "power" = some cmd → powerOnOp false cmds = ([], [closedLog])) := by
  have hcmd : ∀ s : String, command false s = ([], [closedLog]) := fun s => rfl
  refine ⟨rfl, ?_, ?_, ?_, ?_, ?_, ?_, ?_, ?_, rfl, ?_⟩
  · cases h : dictGet cmds "power" <;> simp [powerOnOp, h, command]
  · cases h : dictGet cmds "power" <;> simp [powerOffOp, h, command]
  · cases h : dictGet cmds "mute" <;> simp [muteOnOp, h, command]
  · cases h : dictGet cmds "mute" <;> simp [muteOffOp, h, command]
  · cases h : dictGet cmds "volume" <;> simp [volumeOp, h, command]
  · cases h : dictGet cmds "source"
    case none => simp [sourceOp, h]
    case some c =>
      cases hs : sourceSel rev input
      case none => simp [sourceOp, h, hs]
      case some sel =>
        simp only [sourceOp, h, hs]
        split <;> rfl
  · induction queries with
    | nil => rfl
    | cons q rest ih => simp [updateOp, command, ih]
  · induction queries with
    | nil => rfl
    | cons q rest ih => simp [updateOp, command, ih, List.replicate_succ]
  · intro h
    simp [powerOnOp, h, command]

/-- C9 witness: the closed-port no-op at a concrete configuration. -/
theorem c9_closed_port_noop_witness :
    (powerOnOp false masterCommands).1 = [] ∧
      powerOnOp false masterCommands = ([], [closedLog]) :=
  ⟨(c9_closed_port_noop masterCommands [] [] 0 "" "PWR" initState).2.1,
   (c9_closed_port_noop masterCommands [] [] 0 "" "PWR" initState).2.2.2.2.2.2.2.2.2.2
     (by decide)⟩

/-!  Claim C6: effect of a published event on cached state.  -/

/-- The event's named property field takes the converted value and the
other three fields are untouched. -/
def onlyFieldChanged (pv : PropVal) (old new : ZoneState) : Prop :=
  match pv with
  | .power b =>
    new.power = b ∧ new.volume = old.volume ∧ new.source = old.source ∧ new.mute = old.mute
  | .volume n =>
    new.volume = n ∧ new.power = old.power ∧ new.source = old.source ∧ new.mute = old.mute
  | .source s =>
    new.source = some s ∧ new.power = old.power ∧ new.volume = old.volume ∧ new.mute = old.mute
  | .mute b =>
    new.mute = b ∧ new.power = old.power ∧ new.volume = old.volume ∧ new.source = old.source

/-- C6: publishing an event for zone Z invokes every controller's
callback; a controller with a different zone id is left exactly as it
was, a controller with zone id Z has only the event's named property
field overwritten (publishing `(Z, power, true)` sets its cached power
to true), and its zone id is untouched. -/
theorem c6_state_change_effect (Z : String) (pv : PropVal) (c : Ctrl) (cs : List Ctrl) :
    publish Z pv cs = cs.map (stateChange Z pv) ∧
      (c.zone ≠ Z → stateChange Z pv c = c) ∧
      (c.zone = Z → stateChange Z (.power true) c =
        { zone := c.zone, state := { c.state with power := true } }) ∧
      (c.zone = Z → (stateChange Z pv c).zone = c.zone ∧
        onlyFieldChanged pv c.state (stateChange Z pv c).state) := by
  refine ⟨rfl, ?_, ?_, ?_⟩
  · intro h
    simp [stateChange, h]
  · intro h
    simp [stateChange, h, applyPV]
  · intro h
    refine ⟨by simp [stateChange, h], ?_⟩
    cases pv <;> simp [stateChange, h, applyPV, onlyFieldChanged]

/-- C6 witness: publishing power-true for `master` flips exactly the
power field of the `master` controller. -/
theorem c6_state_change_effect_witness :
    stateChange "master" (.power true) ⟨"master", initState⟩ =
      { zone := "master", state := { initState with power := true } } :=
  (c6_state_change_effect "master" (.power true) ⟨"master", initState⟩ []).2.2.1 rfl

/-!  Claim C7: setSource alias resolution.  -/

/-- Alias resolution depends on the input only through `input.upper()`. -/
theorem sourceSel_congr (rev : List (String × String)) (t s : String)
    (h : pyUpper t = pyUpper s) : sourceSel rev t = sourceSel rev s := by
  rw [sourceSel, sourceSel, h]

/-- C7: `setSource` is case-insensitive — any two inputs with the same
uppercasing produce the identical outbound write; every alias of the
`SOURCES` table resolves to that entry's code; a resolved nonempty code
is written as the zone's source command code suffixed with the code;
and in particular `setSource("GAME")` with source command `SLI` writes
`!1SLI02\r`. -/
theorem c7_setSource_case_insensitive :
    (∀ (cmds rev : List (String × String)) (t s : String),
        pyUpper t = pyUpper s → sourceOp true cmds rev t = sourceOp true cmds rev s) ∧
      ((reverseSources SOURCES).all (fun e =>
        (splitComma e.1).all (fun a => sourceSel (reverseSources SOURCES) a == some e.2)) =
          true) ∧
      (∀ (cmds : List (String × String)) (code co a : String),
        dictGet cmds "source" = some code → sourceSel (reverseSources SOURCES) a = some co →
          co ≠ "" →
          (sourceOp true cmds (reverseSources SOURCES) a).1 = ["!1" ++ code ++ co ++ "\r"]) ∧
      sourceOp true [("source", "SLI")] (reverseSources SOURCES) "GAME" =
        (["!1SLI02\r"], [openLog "!1SLI02\r"]) := by
  refine ⟨?_, by decide, ?_, by decide⟩
  · intro cmds rev t s h
    simp only [sourceOp, sourceSel_congr rev t s h]
  · intro cmds code co a h1 h2 h3
    simp [sourceOp, h1, h2, h3, command, String.append_assoc]

/-- C7 witness: `setSource("game")` and `setSource("GAME")` produce the
identical outbound write. -/
theorem c7_setSource_case_insensitive_witness :
    sourceOp true [("source", "SLI")] (reverseSources SOURCES) "game" =
      sourceOp true [("source", "SLI")] (reverseSources SOURCES) "GAME" :=
  c7_setSource_case_insensitive.1 [("source", "SLI")] (reverseSources SOURCES) "game" "GAME"
    (by decide)

/-!  Claim C3: value-conversion failures.  -/

/-- C3 counterexample: the frame `!1SLIZZ\x1a` matches the pattern and
resolves to (master, source), but `ZZ` is not a key of the source
table; contrary to the claim, the decode step does not drop the frame
silently — it raises an (unlogged, uncaught) `KeyError`. -/
theorem c3_counterexample :
    dictGet SOURCES "ZZ" = none ∧
      resolve exConfig "SLI" = some ("master", "source") ∧
      listenStep exConfig SOURCES [33, 49, 83, 76, 73, 90, 90, 26] [] =
        .error .keyError := by decide

/-- C3 (amended): when a matched and resolved frame's value conversion
fails — an unknown source code (`KeyError`), invalid base-16 volume
text (`ValueError`), or a missing value group where one is required
(`TypeError`) — no event is published, but instead of being logged and
swallowed the exception propagates out of the decode step uncaught,
terminating the Background Listener loop. -/
theorem c3_conversion_failure_raises (cfg : Config) (sources : List (String × String))
    (frame : List Nat) (text : List Char) (cmd : String) (v : Option String)
    (Z P : String) (e : PyErr) (cs : List Ctrl)
    (hdec : utf8Decode frame = some text)
    (hsearch : reSearch text = some (cmd, v))
    (hres : resolve cfg cmd = some (Z, P))
    (hZ : Z ≠ "") (hP : P ≠ "")
    (herr : process sources P v = .error e) :
    listenStep cfg sources frame cs = .error e ∧
      (∀ s2 : String, dictGet sources s2 = none →
        process sources "source" (some s2) = .error .keyError) ∧
      (∀ s3 : String, pyIntBase16 s3 = none →
        process sources "volume" (some s3) = .error .valueError) := by
  refine ⟨?_, ?_, ?_⟩
  · simp [listenStep, decodeFrame, hdec, hsearch, hres, herr, bne_iff_ne, hZ, hP]
  · intro s2 h2
    simp [process, h2]
  · intro s3 h3
    simp [process, h3]

/-- C3 witness: the frame `!1MVLXY\x1a` resolves to (master, volume)
but `XY` is not valid base-16 text, so the listener step raises
`ValueError`. -/
theorem c3_conversion_failure_raises_witness :
    listenStep exConfig SOURCES [33, 49, 77, 86, 76, 88, 89, 26] [] = .error .valueError :=
  (c3_conversion_failure_raises exConfig SOURCES [33, 49, 77, 86, 76, 88, 89, 26]
    ('!' :: '1' :: 'M' :: 'V' :: 'L' :: 'X' :: 'Y' :: ['\x1a']) "MVL" (some "XY")
    "master" "volume" .valueError [] (by decide) (by decide) (by decide) (by decide)
    (by decide) (by decide)).1

/-!  Claim C1: valid frames publish exactly one event.  -/

/-- C1 counterexample: `5\n` is a convertible volume value
(`int("5\n", 16) = 5`, trailing whitespace is stripped) and `MVL` is
the command code of exactly one pair, (master, volume); yet the frame
`!1MVL5\n\x1a` publishes nothing — the regex value group `(.{2})?`
refuses the newline, so the conversion receives `None` and the step
raises `TypeError` instead of publishing `(master, volume, 5)`. -/
theorem c1_counterexample :
    pyIntBase16 "5\n" = some 5 ∧
      allMatches exConfig "MVL" = [("master", "volume")] ∧
      listenStep exConfig SOURCES [33, 49, 77, 86, 76, 53, 10, 26] [⟨"master", initState⟩] =
        .error .typeError := by decide

/-- C1 (amended): for every frame `!1<code><val>\x1a` whose code
(three uppercase letters) is the configured command code of exactly one
(zone Z, property P) pair, Z nonempty, where neither character of the
two-character value is a newline and the property conversion accepts
the value, one listener iteration publishes exactly the event
(Z, P, f(val)) to every registered controller; in particular the frame
`!1PWR01\x1a` against the example configuration yields the event
(master, power, true) and afterwards the master controller's cached
power state is true. -/
theorem c1_valid_frame_publishes (cfg : Config) (sources : List (String × String))
    (frame : List Nat) (a b c x y : Char) (Z P : String) (pv : PropVal) (cs : List Ctrl)
    (hdec : utf8Decode frame = some ('!' :: '1' :: a :: b :: c :: x :: y :: ['\x1a']))
    (ha : isUpperChar a = true) (hb : isUpperChar b = true) (hc : isUpperChar c = true)
    (hx : (x != '\n') = true) (hy : (y != '\n') = true)
    (hZ : Z ≠ "")
    (huniq : allMatches cfg (String.mk [a, b, c]) = [(Z, P)])
    (hconv : process sources P (some (String.mk [x, y])) = .ok pv) :
    listenStep cfg sources frame cs = .ok (some (Z, pv), publish Z pv cs) ∧
      listenStep exConfig SOURCES pwrFrame [⟨"master", initState⟩, ⟨"zone2", initState⟩] =
        .ok (some ("master", .power true),
          [⟨"master", { initState with power := true }⟩, ⟨"zone2", initState⟩]) := by
  refine ⟨?_, by decide⟩
  have hsearch : reSearch ('!' :: '1' :: a :: b :: c :: x :: y :: ['\x1a']) =
      some (String.mk [a, b, c], some (String.mk [x, y])) := by
    simp [reSearch, tryMatch, group2, ha, hb, hc, hx, hy]
  have hres := resolve_of_unique_match cfg (String.mk [a, b, c]) Z P huniq
  have hP := process_ok_prop_ne_empty sources P (some (String.mk [x, y])) pv hconv
  simp [listenStep, decodeFrame, hdec, hsearch, hres, hconv, bne_iff_ne, hZ, hP]

/-- C1 witness: the frame `!1AMT01\x1a` against the example
configuration publishes exactly the event (master, mute, true). -/
theorem c1_valid_frame_publishes_witness :
    listenStep exConfig SOURCES [33, 49, 65, 77, 84, 48, 49, 26] [] =
      .ok (some ("master", .mute true), publish "master" (.mute true) []) :=
  (c1_valid_frame_publishes exConfig SOURCES [33, 49, 65, 77, 84, 48, 49, 26]
    'A' 'M' 'T' '0' '1' "master" "mute" (.mute true) [] (by decide) (by decide) (by decide)
    (by decide) (by decide) (by decide) (by decide) (by decide) (by decide)).1
